import Mathlib

/-!
Shallow embedding of the trading core of `src/lw_strategy_gui_tabs_v3.py`
(repository shinekim107/Auto_trading), together with proofs settling the
frozen claims about its natural-language specification.

Modelling conventions:
- calendar dates (strings "YYYYMMDD" in the source) are modelled as `Nat`
  day numbers; "today + 1 calendar day" (`timedelta(days=1)`) is `+ 1`;
- Python ints are `Int` (`Nat` for inherently non-negative event fields
  that the source wraps in `abs(to_int(...))`);
- the float multiplier `k` is modelled as `ℚ`; the Python builtin `round`
  (round half to even) is modelled exactly by `pyRound`;
- the mutable dict `self.state` is the structure `St`; a key that may be
  absent is an `Option` field; `st.get(key, False)` flags are `Bool`;
- side effects (orders sent via `SendOrder`, `save_state` persistence,
  e-mail notification attempts) are collected in an `Eff` record;
- external collaborators (broker TRs, wall clock, calendar) enter as
  explicit parameters; a gateway call that may raise is an `Option`
  result, `none` meaning the call raised.
-/

/-- One daily bar as used by calc_breakout: date, open, high, low
(columns 일자, 시가, 고가, 저가 after the abs(to_int) cleanup). -/
structure Bar where
  date : Nat
  openP : Int
  high : Int
  low : Int
  deriving Repr, DecidableEq

/-- Insert a bar into a date-sorted list (ascending), modelling
pandas sort_values on the 일자 column. -/
def insertBar (b : Bar) : List Bar → List Bar
  | [] => [b]
  | c :: cs => if b.date ≤ c.date then b :: c :: cs else c :: insertBar b cs

/-- Sort bars by ascending date, modelling df.sort_values of the source. -/
def sortBars : List Bar → List Bar
  | [] => []
  | b :: bs => insertBar b (sortBars bs)

/-- The Python builtin round: round half to even, on an exact rational. -/
def pyRound (q : ℚ) : ℤ :=
  let f : ℤ := Int.fdiv q.num (q.den : ℤ)
  let r : ℚ := q - (f : ℚ)
  if r < 1/2 then f
  else if (1:ℚ)/2 < r then f + 1
  else if f % 2 = 0 then f else f + 1

/-- Embedding of calc_breakout (src/lw_strategy_gui_tabs_v3.py lines
791-819): sort the daily bars by date, require at least two rows
(otherwise the source raises "Need at least 2 daily bars"), take
yesterday = iloc[-2] and today = iloc[-1], and return
int(round(today_open + k * (y_high - y_low))). -/
def calc_breakout (bars : List Bar) (k : ℚ) : Except String Int :=
  match (sortBars bars).reverse with
  | t :: y :: _ =>
      .ok (pyRound ((t.openP : ℚ) + k * ((y.high : ℚ) - (y.low : ℚ))))
  | _ => .error "Need at least 2 daily bars"

/-- Embedding of calc_qty_by_budget (lines 98-101): zero on a
non-positive price, otherwise max(0, budget // price) with Python
floor division. -/
def calc_qty_by_budget (price budget_krw : Int) : Int :=
  if price ≤ 0 then 0
  else max 0 (Int.fdiv budget_krw price)

/-- Does the character list start with the given pattern. -/
def charsStart : List Char → List Char → Bool
  | _, [] => true
  | [], _ :: _ => false
  | a :: as, b :: bs => a == b && charsStart as bs

/-- Does the character list contain the pattern as a contiguous run. -/
def charsHasSub : List Char → List Char → Bool
  | [], pat => charsStart [] pat
  | a :: as, pat => charsStart (a :: as) pat || charsHasSub as pat

/-- Substring containment, modelling the Python expression pat in hay. -/
def strHasSub (hay pat : String) : Bool :=
  charsHasSub hay.data pat.data

/-- Persisted trading state: the trading-relevant keys of the mutable
dict self.state (file state_lw_strategy.json). A key that may be absent
from the dict is an Option field; the flags read with st.get(key, False)
are Bool. The GUI configuration mirror keys (strategy_on, real_on,
budget, k, code, chart and e-mail settings) are carried in the contexts
below instead, since the trading logic only reads them from the widgets. -/
structure St where
  buy_filled_date : Option Nat := none
  buy_sent_date : Option Nat := none
  buy_order_pending : Bool := false
  buy_paper : Bool := false
  buy_send_ret : Option Int := none
  buy_snapshot_price : Option Int := none
  buy_qty : Option Int := none
  buy_code : Option String := none
  buy_sent_time : Option String := none
  buy_order_no : Option String := none
  pending_sell_date : Option Nat := none
  sell_roll_reason : Option String := none
  sell_filled_date : Option Nat := none
  sell_reason : Option String := none
  sell_order_pending : Bool := false
  sell_paper : Bool := false
  sell_sent_date : Option Nat := none
  sell_send_ret : Option Int := none
  sell_qty : Option Int := none
  sell_code : Option String := none
  sell_sent_time : Option String := none
  sell_order_no : Option String := none
  email_error_last : Option String := none
  deriving Repr, DecidableEq

/-- The empty state dict: load_state on a missing or unreadable file. -/
def initSt : St := {}

/-- Order side, the fourth SendOrder argument (1 = buy, 2 = sell). -/
inductive Side where
  | buy
  | sell
  deriving Repr, DecidableEq

/-- One order handed to kiwoom.SendOrder. -/
structure SentOrder where
  side : Side
  code : String
  qty : Int
  deriving Repr, DecidableEq

/-- Observable side effects of one operation: orders sent via SendOrder,
snapshots written by save_state (in order), and the number of e-mail
notification attempts (send_email_gui calls). -/
structure Eff where
  orders : List SentOrder := []
  saves : List St := []
  emails : Nat := 0
  deriving Repr, DecidableEq

/-- No side effect. -/
def noEff : Eff := {}

/-- Sequential composition of effect logs. -/
def Eff.app (a b : Eff) : Eff :=
  { orders := a.orders ++ b.orders
    saves := a.saves ++ b.saves
    emails := a.emails + b.emails }

/-- Ambient context of one evaluation: the values the handlers read from
the wall clock, the GUI widgets and SendOrder return codes. today is
yyyymmdd() as a day number, realOn is chk_real.isChecked(), strategyOn is
chk_strategy.isChecked(), inSession is is_market_time_clock_only(),
reachedSellTime is reached_time(NEXTOPEN_SELL_TIME), nowTime is the
formatted wall-clock time string, buyRet and sellRet are the values
SendOrder would return. -/
structure Ctx where
  today : Nat
  realOn : Bool := true
  strategyOn : Bool := true
  inSession : Bool := true
  reachedSellTime : Bool := true
  k : ℚ := 1/2
  budget : Int := 1000000
  code : String := "122630"
  nowTime : String := "09:01:00"
  buyRet : Int := 0
  sellRet : Int := 0
  deriving Repr, DecidableEq

/-- Embedding of try_breakout_buy (lines 1103-1156). Guards in source
order: the fill-based once-per-day guard (buy_filled_date == today), the
qty <= 0 guard, and the duplicate guard (buy_sent_date == today and
buy_order_pending). Then either the paper branch (records the decision
with buy_order_pending False) or the real branch (SendOrder then record
with buy_order_pending True); both set pending_sell_date to today + 1
calendar day and persist via save_state before returning. -/
def try_breakout_buy (c : Ctx) (price qty : Int) (s : St) : St × Eff :=
  if s.buy_filled_date = some c.today then (s, noEff)
  else if qty ≤ 0 then (s, noEff)
  else if s.buy_sent_date = some c.today ∧ s.buy_order_pending then (s, noEff)
  else if ¬ c.realOn then
    let s1 : St :=
      { s with
        buy_sent_date := some c.today
        buy_order_pending := false
        buy_paper := true
        buy_snapshot_price := some price
        buy_qty := some qty
        buy_code := some c.code
        pending_sell_date := some (c.today + 1) }
    (s1, { saves := [s1] })
  else
    let s1 : St :=
      { s with
        buy_sent_date := some c.today
        buy_order_pending := true
        buy_send_ret := some c.buyRet
        buy_snapshot_price := some price
        buy_qty := some qty
        buy_code := some c.code
        buy_sent_time := some c.nowTime
        pending_sell_date := some (c.today + 1) }
    (s1, { orders := [⟨Side.buy, c.code, qty⟩], saves := [s1] })

/-- Embedding of try_next_open_sell (lines 1158-1216). posQty is the
result of the get_position_qty gateway call, none meaning the underlying
TR raised (the exception propagates to on_tick); the call is only made
after all early-return guards pass. Guards in source order: pending date
must equal today, clock gates, the sell_filled_date guard, the duplicate
guard; then the no-position skip, the paper branch or the real branch. -/
def try_next_open_sell (c : Ctx) (posQty : Option Int) (s : St) :
    Option (St × Eff) :=
  if s.pending_sell_date ≠ some c.today then some (s, noEff)
  else if ¬ c.inSession then some (s, noEff)
  else if ¬ c.reachedSellTime then some (s, noEff)
  else if s.sell_filled_date = some c.today then some (s, noEff)
  else if s.sell_sent_date = some c.today ∧ s.sell_order_pending then
    some (s, noEff)
  else
    match posQty with
    | none => none
    | some qty =>
      if qty ≤ 0 then
        let s1 : St :=
          { s with
            sell_filled_date := some c.today
            sell_reason := some "no_position"
            sell_order_pending := false }
        some (s1, { saves := [s1] })
      else if ¬ c.realOn then
        let s1 : St :=
          { s with
            sell_sent_date := some c.today
            sell_order_pending := false
            sell_paper := true
            sell_qty := some qty }
        some (s1, { saves := [s1] })
      else
        let s1 : St :=
          { s with
            sell_sent_date := some c.today
            sell_order_pending := true
            sell_send_ret := some c.sellRet
            sell_qty := some qty
            sell_code := some c.code
            sell_sent_time := some c.nowTime }
        some (s1, { orders := [⟨Side.sell, c.code, qty⟩], saves := [s1] })

/-- Embedding of roll_pending_sell_if_holiday (lines 855-874):
when pending_sell_date equals today and today is not a trading day
(tradingToday is the cached is_trading_day_today_cached answer, which
never raises), advance pending_sell_date to tomorrow and persist. -/
def roll_pending_sell_if_holiday (today : Nat) (tradingToday : Bool)
    (s : St) : St × Eff :=
  match s.pending_sell_date with
  | none => (s, noEff)
  | some pending =>
    if pending ≠ today then (s, noEff)
    else if tradingToday then (s, noEff)
    else
      let s1 : St :=
        { s with
          pending_sell_date := some (today + 1)
          sell_roll_reason := some "holiday_or_closed" }
      (s1, { saves := [s1] })

/-- One fill-confirmation callback payload: gubun is the first handler
argument, the remaining fields are the GetChejanData reads after the
abs(to_int(...)) and strip cleanup of the source (hence Nat quantities);
order_gubun is the direction string with "+" already removed. -/
structure ChejanEvent where
  gubun : String
  order_no : String
  code : String
  name : String
  order_gubun : String
  order_qty : Nat
  unfilled_qty : Nat
  filled_qty : Nat
  filled_price : Nat
  deriving Repr, DecidableEq

/-- Embedding of on_chejan (lines 1278-1357). emailFails says whether the
send_email_gui call would raise (the handler then records the error text
errRepr in email_error_last and persists again). Control flow of the
source: return unless gubun == "0"; on a full fill (order_qty > 0 and
unfilled_qty == 0) dispatch on the direction string: if it contains 매수
mark the buy leg filled today, if it contains 매도 mark the sell leg
filled today, otherwise return; both branches persist, then attempt one
e-mail notification. The handler never compares order_no with a
previously recorded order id, and never touches pending_sell_date. The common tail (the persistence of
the updated leg and the single notification attempt, with the error
re-persist on a notification failure) is factored into finishChejan. -/
def finishChejan (emailFails : Bool) (errRepr : String) (s1 : St) :
    St × Eff :=
  if emailFails then
    let s2 : St := { s1 with email_error_last := some errRepr }
    (s2, { saves := [s1, s2], emails := 1 })
  else
    (s1, { saves := [s1], emails := 1 })

def on_chejan (today : Nat) (emailFails : Bool) (errRepr : String)
    (ev : ChejanEvent) (s : St) : St × Eff :=
  if ev.gubun ≠ "0" then (s, noEff)
  else if ¬ (0 < ev.order_qty ∧ ev.unfilled_qty = 0) then (s, noEff)
  else if strHasSub ev.order_gubun "매수" then
    finishChejan emailFails errRepr
      { s with
        buy_filled_date := some today
        buy_order_pending := false
        buy_order_no := some ev.order_no }
  else if strHasSub ev.order_gubun "매도" then
    finishChejan emailFails errRepr
      { s with
        sell_filled_date := some today
        sell_order_pending := false
        sell_order_no := some ev.order_no }
  else (s, noEff)

/-- Results of the external gateway calls a tick may make: refreshOk
says whether the alternating refresh_unfilled / refresh_balance TR
succeeded, tradingToday is the cached calendar answer (never raises),
priceVol is get_current_price_and_volume (none = raised), bars is the
daily-bar TR behind calc_breakout (none = raised), posQty is
get_position_qty (none = raised). -/
structure Gateway where
  refreshOk : Bool := true
  tradingToday : Bool := true
  priceVol : Option (Int × Int) := none
  bars : Option (List Bar) := none
  posQty : Option Int := none
  deriving Repr, DecidableEq

/-- Embedding of run_strategy_step (lines 1031-1098), the part relevant
to trading state. Returns none when the price fetch raised (the
exception propagates to the tick boundary); otherwise returns the new
state, the new in-memory breakout cache (self.breakout_price, recomputed
only when the cache is empty, with any calc_breakout failure swallowed
to none) and the effects. The buy branch runs only when the strategy
checkbox is on, the clock-only market gate holds, and the signal is
BREAKOUT, that is breakout and price are truthy and price >= breakout. -/
def run_strategy_step (c : Ctx) (gw : Gateway) (s : St)
    (breakoutCache : Option Int) : Option (St × Option Int × Eff) :=
  match gw.priceVol with
  | none => none
  | some (price, _vol) =>
    let bc : Option Int :=
      match breakoutCache with
      | some b => some b
      | none =>
        match gw.bars with
        | none => none
        | some bars => (calc_breakout bars c.k).toOption
    let qty : Int := if price ≠ 0 then calc_qty_by_budget price c.budget else 0
    let breakoutSig : Bool :=
      match bc with
      | some b => b ≠ 0 ∧ price ≠ 0 ∧ b ≤ price
      | none => false
    if ¬ c.strategyOn then some (s, bc, noEff)
    else if ¬ c.inSession then some (s, bc, noEff)
    else if breakoutSig then
      let (s1, e1) := try_breakout_buy c price qty s
      some (s1, bc, e1)
    else some (s, bc, noEff)

/-- Embedding of the body of on_tick (lines 997-1029), after the
logged-in and numeric-code preconditions. Sequences: the alternating
table refresh, roll_pending_sell_if_holiday, try_next_open_sell,
run_strategy_step; any exception raised by a step aborts the remaining
steps, is caught at the tick boundary, and increments fail_count (the
state already persisted by completed sub-steps stays); a fully completed
body resets fail_count to 0. Returns (state, breakout cache, fail count,
effects). -/
def on_tick (c : Ctx) (gw : Gateway) (s : St) (breakoutCache : Option Int)
    (failCount : Nat) : St × Option Int × Nat × Eff :=
  if ¬ gw.refreshOk then (s, breakoutCache, failCount + 1, noEff)
  else
    let r1 := roll_pending_sell_if_holiday c.today gw.tradingToday s
    match try_next_open_sell c gw.posQty r1.1 with
    | none => (r1.1, breakoutCache, failCount + 1, r1.2)
    | some (s2, e2) =>
      match run_strategy_step c gw s2 breakoutCache with
      | none => (s2, breakoutCache, failCount + 1, Eff.app r1.2 e2)
      | some (s3, bc3, e3) =>
        (s3, bc3, 0, Eff.app r1.2 (Eff.app e2 e3))

/-- One state-mutating operation of the core, with the inputs it reads
from the collaborators; the calendar day it runs on is supplied
separately by applyOp. The four operations are the only call sites that
write the trading keys of self.state. -/
inductive Op where
  | roll (tradingToday : Bool)
  | buyEval (c : Ctx) (price qty : Int)
  | sellEval (c : Ctx) (posQty : Option Int)
  | fill (emailFails : Bool) (errRepr : String) (ev : ChejanEvent)
  deriving Repr, DecidableEq

/-- Apply one operation on day d, keeping only the state (a sell
evaluation whose position query raises leaves the state unchanged). -/
def applyOp (d : Nat) (o : Op) (s : St) : St :=
  match o with
  | .roll trading => (roll_pending_sell_if_holiday d trading s).1
  | .buyEval c p q => (try_breakout_buy { c with today := d } p q s).1
  | .sellEval c pos =>
    match try_next_open_sell { c with today := d } pos s with
    | none => s
    | some (s1, _) => s1
  | .fill eok er ev => (on_chejan d eok er ev s).1

/-- Run a list of dated operations from a starting state. -/
def runTrace (s : St) : List (Nat × Op) → St
  | [] => s
  | (d, o) :: tr => runTrace (applyOp d o s) tr

/-- Reachability bound: any pending sell date held while the current day
is d was scheduled no later than tomorrow. It holds of the empty initial
state and is preserved by every operation. -/
def pendingLE (s : St) (d : Nat) : Prop :=
  ∀ p, s.pending_sell_date = some p → p ≤ d + 1

/-- Order on optional dates: an unset date is below everything, and a
set date never falls. -/
def OptLE : Option Nat → Option Nat → Prop
  | none, _ => True
  | some _, none => False
  | some a, some b => a ≤ b

/-- The days of a dated trace are nondecreasing and bounded below. -/
def DaysMono : Nat → List (Nat × Op) → Prop
  | _, [] => True
  | d0, (d, _) :: tr => d0 ≤ d ∧ DaysMono d tr

/-- Scenario: a full-fill confirmation for a sell order numbered 777. -/
def sellFillEv : ChejanEvent :=
  { gubun := "0"
    order_no := "777"
    code := "122630"
    name := "KODEX 200"
    order_gubun := "매도"
    order_qty := 10
    unfilled_qty := 0
    filled_qty := 10
    filled_price := 1000 }

/-- Scenario: a full-fill buy confirmation whose order number 9999
matches no recorded order id. -/
def strayBuyFillEv : ChejanEvent :=
  { gubun := "0"
    order_no := "9999"
    code := "122630"
    name := "KODEX 200"
    order_qty := 10
    order_gubun := "매수"
    unfilled_qty := 0
    filled_qty := 10
    filled_price := 1000 }

/-- Scenario: a sell intent sent on day 10 (order 777) still pending,
with the sell scheduled for day 10. -/
def sellPendingSt : St :=
  { pending_sell_date := some 10
    sell_sent_date := some 10
    sell_order_pending := true
    sell_qty := some 10
    sell_order_no := some "777" }

/-- Scenario: a state whose recorded order ids are 0001 and 0002. -/
def recordedIdsSt : St :=
  { buy_sent_date := some 10
    buy_order_pending := true
    buy_order_no := some "0001"
    sell_order_no := some "0002" }

/-- Scenario: only a sell scheduled for day 10 is outstanding. -/
def noPosSt : St :=
  { pending_sell_date := some 10 }

/-- Scenario: a full-fill event whose direction string names neither a
buy nor a sell (an amend confirmation). -/
def otherDirEv : ChejanEvent :=
  { gubun := "0"
    order_no := "0005"
    code := "122630"
    name := "KODEX 200"
    order_gubun := "정정"
    order_qty := 3
    unfilled_qty := 0
    filled_qty := 3
    filled_price := 10 }

/-- Inserting a bar grows the length by one. -/
theorem insertBar_length (b : Bar) (l : List Bar) :
    (insertBar b l).length = l.length + 1 := by
  induction l with
  | nil => rfl
  | cons c cs ih =>
    simp only [insertBar]
    split
    · simp
    · simp [ih]

/-- Sorting the bars preserves the number of rows. -/
theorem sortBars_length (l : List Bar) : (sortBars l).length = l.length := by
  induction l with
  | nil => rfl
  | cons b bs ih => simp [sortBars, insertBar_length, ih]

/-- C10: calc_qty_by_budget is total and never negative; any
non-positive price yields exactly zero (the division is guarded). -/
theorem calc_qty_by_budget_safe (price budget : Int) :
    0 ≤ calc_qty_by_budget price budget ∧
    (price ≤ 0 → calc_qty_by_budget price budget = 0) := by
  unfold calc_qty_by_budget
  constructor
  · split
    · exact le_refl 0
    · exact le_max_left 0 _
  · intro h
    simp [h]

/-- Witness for C10 at price -7, budget 5000. -/
theorem calc_qty_by_budget_safe_w :
    0 ≤ calc_qty_by_budget (-7) 5000 ∧
    ((-7 : Int) ≤ 0 → calc_qty_by_budget (-7) 5000 = 0) :=
  calc_qty_by_budget_safe (-7) 5000

/-- C6: the breakout calculator fails with the insufficient-history
error whenever fewer than two daily bars are available, returns the
integer pyRound(todayOpen + k * (priorHigh - priorLow)) on the last two
date-sorted bars otherwise, and on priorHigh 105, priorLow 95,
todayOpen 100, k one half it returns 105. -/
theorem calc_breakout_spec (bars : List Bar) (k : ℚ) :
    (bars.length < 2 →
      calc_breakout bars k = .error "Need at least 2 daily bars") ∧
    (∀ t y rest, (sortBars bars).reverse = t :: y :: rest →
      calc_breakout bars k =
        .ok (pyRound ((t.openP : ℚ) + k * ((y.high : ℚ) - (y.low : ℚ))))) ∧
    calc_breakout [⟨20240101, 0, 105, 95⟩, ⟨20240102, 100, 0, 0⟩] (1/2)
      = .ok 105 := by
  refine ⟨?_, ?_, ?_⟩
  · intro hlen
    unfold calc_breakout
    match hrev : (sortBars bars).reverse with
    | [] => simp
    | [t] => simp
    | t :: y :: rest =>
      exfalso
      have h2 : (sortBars bars).reverse.length = bars.length := by
        simp [sortBars_length]
      rw [hrev] at h2
      simp at h2
      omega
  · intro t y rest hrev
    unfold calc_breakout
    rw [hrev]
  · simp [calc_breakout, sortBars, insertBar]
    norm_num [pyRound]

/-- Witness for C6: the one-bar input fails, the concrete two-bar input
gives 105. -/
theorem calc_breakout_spec_w :
    calc_breakout [⟨20240102, 100, 0, 0⟩] (1/2)
      = .error "Need at least 2 daily bars" ∧
    calc_breakout [⟨20240101, 0, 105, 95⟩, ⟨20240102, 100, 0, 0⟩] (1/2)
      = .ok 105 :=
  ⟨(calc_breakout_spec [⟨20240102, 100, 0, 0⟩] (1/2)).1 (by decide),
   (calc_breakout_spec [⟨20240102, 100, 0, 0⟩] (1/2)).2.2⟩

/-- C7: on a buy trigger the quantity is floor(budget / price) as in the
examples (10500 at price 1000 gives 10, 900 at price 1000 gives 0); a
non-positive quantity makes the evaluation return with no order and no
recorded decision; otherwise (real-order mode, no prior decision today)
a buy order is sent, the intent is recorded (sent date today, pending
flag on, snapshot price and quantity), pending_sell_date becomes
today + 1, and exactly this final state is persisted before returning. -/
theorem buy_trigger_spec (c : Ctx) (price qty : Int) (s : St) :
    calc_qty_by_budget 1000 10500 = 10 ∧
    calc_qty_by_budget 1000 900 = 0 ∧
    (qty ≤ 0 → try_breakout_buy c price qty s = (s, noEff)) ∧
    (c.realOn = true →
      s.buy_filled_date ≠ some c.today →
      ¬ (s.buy_sent_date = some c.today ∧ s.buy_order_pending = true) →
      0 < qty →
      (try_breakout_buy c price qty s).2.orders = [⟨Side.buy, c.code, qty⟩] ∧
      (try_breakout_buy c price qty s).1.buy_sent_date = some c.today ∧
      (try_breakout_buy c price qty s).1.buy_order_pending = true ∧
      (try_breakout_buy c price qty s).1.buy_snapshot_price = some price ∧
      (try_breakout_buy c price qty s).1.buy_qty = some qty ∧
      (try_breakout_buy c price qty s).1.pending_sell_date
        = some (c.today + 1) ∧
      (try_breakout_buy c price qty s).2.saves
        = [(try_breakout_buy c price qty s).1]) := by
  refine ⟨by decide, by decide, ?_, ?_⟩
  · intro hq
    unfold try_breakout_buy
    split
    · rfl
    · simp [hq]
  · intro hreal hfill hdup hq
    unfold try_breakout_buy
    rw [if_neg hfill, if_neg (by omega), if_neg hdup, if_neg (by simp [hreal])]
    simp

/-- Witness for C7 at a fresh state, price 1000, qty 10, day 10. -/
theorem buy_trigger_spec_w :
    calc_qty_by_budget 1000 10500 = 10 ∧
    calc_qty_by_budget 1000 900 = 0 ∧
    ((10 : Int) ≤ 0 →
      try_breakout_buy { today := 10 } 1000 10 initSt = (initSt, noEff)) ∧
    (({ today := 10 } : Ctx).realOn = true →
      initSt.buy_filled_date ≠ some ({ today := 10 } : Ctx).today →
      ¬ (initSt.buy_sent_date = some ({ today := 10 } : Ctx).today ∧
          initSt.buy_order_pending = true) →
      (0 : Int) < 10 →
      (try_breakout_buy { today := 10 } 1000 10 initSt).2.orders
        = [⟨Side.buy, ({ today := 10 } : Ctx).code, 10⟩] ∧
      (try_breakout_buy { today := 10 } 1000 10 initSt).1.buy_sent_date
        = some ({ today := 10 } : Ctx).today ∧
      (try_breakout_buy { today := 10 } 1000 10 initSt).1.buy_order_pending
        = true ∧
      (try_breakout_buy { today := 10 } 1000 10 initSt).1.buy_snapshot_price
        = some 1000 ∧
      (try_breakout_buy { today := 10 } 1000 10 initSt).1.buy_qty = some 10 ∧
      (try_breakout_buy { today := 10 } 1000 10 initSt).1.pending_sell_date
        = some (({ today := 10 } : Ctx).today + 1) ∧
      (try_breakout_buy { today := 10 } 1000 10 initSt).2.saves
        = [(try_breakout_buy { today := 10 } 1000 10 initSt).1]) :=
  buy_trigger_spec { today := 10 } 1000 10 initSt

/-- C5: with pending_sell_date equal to today and today a non-trading
day, a single roll advances pending_sell_date to exactly today + 1 and
persists exactly the advanced state; running it a second time on the
same day changes nothing more; over a run where day d and day d+1 are
non-trading and day d+2 is a trading day, rolling on d and then on d+1
leaves pending_sell_date = d+2, sell evaluation returns untouched on d
and on d+1 (before its position query), and on day d+2 the roll is a
no-op and the sell evaluation passes the date gate and sends the sell
order. -/
theorem holiday_roll_forward_spec (d : Nat) (q : Int) (s : St)
    (hp : s.pending_sell_date = some d)
    (hsf : s.sell_filled_date ≠ some (d + 2))
    (hsd : ¬ (s.sell_sent_date = some (d + 2) ∧ s.sell_order_pending = true))
    (hq : 0 < q) :
    ((roll_pending_sell_if_holiday d false s).1.pending_sell_date
      = some (d + 1)) ∧
    ((roll_pending_sell_if_holiday d false s).2.saves
      = [(roll_pending_sell_if_holiday d false s).1]) ∧
    (roll_pending_sell_if_holiday d false
        ((roll_pending_sell_if_holiday d false s).1)
      = ((roll_pending_sell_if_holiday d false s).1, noEff)) ∧
    ((roll_pending_sell_if_holiday (d + 1) false
        ((roll_pending_sell_if_holiday d false s).1)).1.pending_sell_date
      = some (d + 2)) ∧
    (try_next_open_sell { today := d } none
        ((roll_pending_sell_if_holiday d false s).1)
      = some ((roll_pending_sell_if_holiday d false s).1, noEff)) ∧
    (try_next_open_sell { today := d + 1 } none
        ((roll_pending_sell_if_holiday (d + 1) false
          ((roll_pending_sell_if_holiday d false s).1)).1)
      = some ((roll_pending_sell_if_holiday (d + 1) false
          ((roll_pending_sell_if_holiday d false s).1)).1, noEff)) ∧
    (roll_pending_sell_if_holiday (d + 2) true
        ((roll_pending_sell_if_holiday (d + 1) false
          ((roll_pending_sell_if_holiday d false s).1)).1)
      = ((roll_pending_sell_if_holiday (d + 1) false
          ((roll_pending_sell_if_holiday d false s).1)).1, noEff)) ∧
    ((try_next_open_sell { today := d + 2 } (some q)
        ((roll_pending_sell_if_holiday (d + 1) false
          ((roll_pending_sell_if_holiday d false s).1)).1)).map
        (fun r => (r.1.sell_sent_date, r.1.sell_order_pending, r.2.orders))
      = some (some (d + 2), true,
          [⟨Side.sell, ({ today := d + 2 } : Ctx).code, q⟩])) := by
  have h1 : roll_pending_sell_if_holiday d false s =
      ({ s with pending_sell_date := some (d + 1)
                sell_roll_reason := some "holiday_or_closed" },
       { saves := [{ s with pending_sell_date := some (d + 1)
                            sell_roll_reason := some "holiday_or_closed" }] }) := by
    unfold roll_pending_sell_if_holiday
    rw [hp]
    simp
  have h2 : roll_pending_sell_if_holiday (d + 1) false
      ((roll_pending_sell_if_holiday d false s).1) =
      ({ s with pending_sell_date := some (d + 2)
                sell_roll_reason := some "holiday_or_closed" },
       { saves := [{ s with pending_sell_date := some (d + 2)
                            sell_roll_reason := some "holiday_or_closed" }] }) := by
    rw [h1]
    unfold roll_pending_sell_if_holiday
    simp
  refine ⟨?_, ?_, ?_, ?_, ?_, ?_, ?_, ?_⟩
  · rw [h1]
  · rw [h1]
  · rw [h1]
    unfold roll_pending_sell_if_holiday
    simp [noEff]
  · rw [h2]
  · rw [h1]
    unfold try_next_open_sell
    simp
  · rw [h2]
    unfold try_next_open_sell
    simp
  · rw [h2]
    unfold roll_pending_sell_if_holiday
    simp [noEff]
  · rw [h2]
    unfold try_next_open_sell
    simp [hsf, hsd, not_le.2 hq]

/-- Witness for C5: pending sell scheduled for day 10, days 10 and 11
closed, day 12 open; the first roll advances the pending date to 11 and
persists the advanced state, and after the two rolls it is 12. -/
theorem holiday_roll_forward_spec_w :
    ((roll_pending_sell_if_holiday 10 false
        ({ pending_sell_date := some 10 } : St)).1.pending_sell_date
      = some 11) ∧
    ((roll_pending_sell_if_holiday 10 false
        ({ pending_sell_date := some 10 } : St)).2.saves
      = [(roll_pending_sell_if_holiday 10 false
          ({ pending_sell_date := some 10 } : St)).1]) ∧
    ((roll_pending_sell_if_holiday 11 false
        ((roll_pending_sell_if_holiday 10 false
          ({ pending_sell_date := some 10 } : St)).1)).1.pending_sell_date
      = some 12) :=
  ⟨(holiday_roll_forward_spec 10 3 { pending_sell_date := some 10 }
      (by decide) (by decide) (by decide) (by decide)).1,
   (holiday_roll_forward_spec 10 3 { pending_sell_date := some 10 }
      (by decide) (by decide) (by decide) (by decide)).2.1,
   (holiday_roll_forward_spec 10 3 { pending_sell_date := some 10 }
      (by decide) (by decide) (by decide) (by decide)).2.2.2.1⟩

/-- Helper: once todays buy is recorded as filled, or a same-day order
is pending, try_breakout_buy is a complete no-op. -/
theorem try_breakout_buy_blocked (c : Ctx) (price qty : Int) (s : St)
    (h : s.buy_filled_date = some c.today ∨
      (s.buy_sent_date = some c.today ∧ s.buy_order_pending = true)) :
    try_breakout_buy c price qty s = (s, noEff) := by
  unfold try_breakout_buy
  rcases h with h | h
  · rw [if_pos h]
  · by_cases hf : s.buy_filled_date = some c.today
    · rw [if_pos hf]
    · rw [if_neg hf]
      by_cases hq : qty ≤ 0
      · rw [if_pos hq]
      · rw [if_neg hq, if_pos h]

/-- Helper: if a run of try_breakout_buy sent an order, the resulting
state carries a same-day pending order record. -/
theorem try_breakout_buy_sent_state (c : Ctx) (price qty : Int) (s : St)
    (h : (try_breakout_buy c price qty s).2.orders ≠ []) :
    (try_breakout_buy c price qty s).1.buy_sent_date = some c.today ∧
    (try_breakout_buy c price qty s).1.buy_order_pending = true := by
  unfold try_breakout_buy at h ⊢
  by_cases h1 : s.buy_filled_date = some c.today
  · rw [if_pos h1] at h
    simp [noEff] at h
  · rw [if_neg h1] at h ⊢
    by_cases h2 : qty ≤ 0
    · rw [if_pos h2] at h
      simp [noEff] at h
    · rw [if_neg h2] at h ⊢
      by_cases h3 : s.buy_sent_date = some c.today ∧ s.buy_order_pending = true
      · rw [if_pos h3] at h
        simp [noEff] at h
      · rw [if_neg h3] at h ⊢
        by_cases h4 : c.realOn = true
        · rw [if_neg (show ¬¬c.realOn = true from not_not_intro h4)] at h ⊢
          simp
        · rw [if_pos (show ¬c.realOn = true from h4)] at h
          simp at h

/-- Helper: the state finishChejan returns is its input, possibly with
the notification error recorded. -/
theorem finishChejan_fst (eok : Bool) (er : String) (s1 : St) :
    (finishChejan eok er s1).1 = s1 ∨
    (finishChejan eok er s1).1 = { s1 with email_error_last := some er } := by
  unfold finishChejan
  split
  · exact Or.inr rfl
  · exact Or.inl rfl

/-- Helper: on_chejan preserves a same-day buy block: from a state with
a pending same-day order it leaves either the pending record or a
same-day fill date. -/
theorem on_chejan_keeps_block (today : Nat) (eok : Bool) (er : String)
    (ev : ChejanEvent) (s : St)
    (h : s.buy_sent_date = some today ∧ s.buy_order_pending = true) :
    ((on_chejan today eok er ev s).1.buy_filled_date = some today ∨
     ((on_chejan today eok er ev s).1.buy_sent_date = some today ∧
      (on_chejan today eok er ev s).1.buy_order_pending = true)) := by
  unfold on_chejan
  split
  · exact Or.inr h
  · split
    · exact Or.inr h
    · split
      · rcases finishChejan_fst eok er _ with he | he <;> rw [he] <;>
          exact Or.inl rfl
      · split
        · rcases finishChejan_fst eok er _ with he | he <;> rw [he] <;>
            exact Or.inr h
        · exact Or.inr h

/-- C1 counterexample: with real orders off, a paper buy decision is
recorded on day 10 (sent date set, paper flag on), yet a second buy
evaluation on the same day records and persists another decision,
overwriting the snapshot price; so the buy leg leaves NONE twice on one
buyDecisionDate. -/
theorem buy_once_per_day_cex :
    (St.buy_sent_date
        (try_breakout_buy { today := 10, realOn := false } 100 5 initSt).1
      = some 10) ∧
    (St.buy_paper
        (try_breakout_buy { today := 10, realOn := false } 100 5 initSt).1
      = true) ∧
    ((try_breakout_buy { today := 10, realOn := false } 200 5
        ((try_breakout_buy { today := 10, realOn := false } 100 5
          initSt).1)).2.saves ≠ []) ∧
    ((try_breakout_buy { today := 10, realOn := false } 200 5
        ((try_breakout_buy { today := 10, realOn := false } 100 5
          initSt).1)).1.buy_snapshot_price = some 200) := by decide

/-- C1 amended: at most one real buy order per day. If a buy evaluation
sent an order, every later buy evaluation on the same day is a complete
no-op (no order, no record, no persistence), including after fill
reconciliation of any event has run on the state in between. -/
theorem buy_order_once_per_day (c c2 : Ctx) (price qty p2 q2 : Int) (s : St)
    (hd : c2.today = c.today)
    (hsent : (try_breakout_buy c price qty s).2.orders ≠ []) :
    (try_breakout_buy c2 p2 q2 (try_breakout_buy c price qty s).1
      = ((try_breakout_buy c price qty s).1, noEff)) ∧
    (∀ (eok : Bool) (er : String) (ev : ChejanEvent),
      try_breakout_buy c2 p2 q2
          ((on_chejan c.today eok er ev (try_breakout_buy c price qty s).1).1)
        = ((on_chejan c.today eok er ev
            (try_breakout_buy c price qty s).1).1, noEff)) := by
  obtain ⟨hs, hp⟩ := try_breakout_buy_sent_state c price qty s hsent
  constructor
  · exact try_breakout_buy_blocked c2 p2 q2 _
      (Or.inr ⟨by rw [hd]; exact hs, hp⟩)
  · intro eok er ev
    refine try_breakout_buy_blocked c2 p2 q2 _ ?_
    rcases on_chejan_keeps_block c.today eok er ev _ ⟨hs, hp⟩ with h | h
    · exact Or.inl (by rw [hd]; exact h)
    · exact Or.inr ⟨by rw [hd]; exact h.1, h.2⟩

/-- Witness for the amended C1: after the real order of day 10 is sent,
the next same-day evaluation is a no-op. -/
theorem buy_order_once_per_day_w :
    try_breakout_buy { today := 10 } 150 7
        ((try_breakout_buy { today := 10 } 100 5 initSt).1)
      = ((try_breakout_buy { today := 10 } 100 5 initSt).1, noEff) :=
  (buy_order_once_per_day { today := 10 } { today := 10 } 100 5 150 7 initSt
    rfl (by decide)).1

/-- C2 counterexample: both sell-leg terminations leave pending_sell_date
in place instead of clearing it. A full sell fill for the recorded order
777 on day 10 sets sell_filled_date but keeps pending_sell_date = 10, and
the no-position skip path likewise records SKIPPED(no_position) while
keeping pending_sell_date = 10. -/
theorem sell_clear_pending_cex :
    ((on_chejan 10 false "" sellFillEv sellPendingSt).1.sell_filled_date
      = some 10) ∧
    ((on_chejan 10 false "" sellFillEv sellPendingSt).1.pending_sell_date
      = some 10) ∧
    ((try_next_open_sell { today := 10 } (some 0) noPosSt).map
        (fun r => (r.1.sell_filled_date, r.1.sell_reason,
          r.1.pending_sell_date))
      = some (some 10, some "no_position", some 10)) := by decide

/-- C2 amended: when the sell leg terminates (full-fill reconciliation of
a sell-direction event, or the no-position skip), sell_filled_date is set
to today, sell_order_pending is cleared and the state is persisted, but
pending_sell_date is left unchanged rather than cleared; the stale date
is inert because sell evaluation requires pending_sell_date == today and
the sell_filled_date guard blocks the rest of the day. -/
theorem sell_termination_keeps_pending (today : Nat) (eok : Bool)
    (er : String) (ev : ChejanEvent) (c : Ctx) (q : Int) (s : St)
    (hg : ev.gubun = "0") (hq : 0 < ev.order_qty) (hu : ev.unfilled_qty = 0)
    (hsell : strHasSub ev.order_gubun "매도" = true)
    (hnb : strHasSub ev.order_gubun "매수" = false) :
    ((on_chejan today eok er ev s).1.sell_filled_date = some today ∧
     (on_chejan today eok er ev s).1.sell_order_pending = false ∧
     (on_chejan today eok er ev s).1.pending_sell_date
        = s.pending_sell_date ∧
     (on_chejan today eok er ev s).2.saves ≠ []) ∧
    (s.pending_sell_date = some c.today → c.inSession = true →
     c.reachedSellTime = true →
     s.sell_filled_date ≠ some c.today →
     ¬ (s.sell_sent_date = some c.today ∧ s.sell_order_pending = true) →
     q ≤ 0 →
     ∃ s1 : St,
       try_next_open_sell c (some q) s = some (s1, { saves := [s1] }) ∧
       s1.sell_filled_date = some c.today ∧
       s1.sell_reason = some "no_position" ∧
       s1.sell_order_pending = false ∧
       s1.pending_sell_date = s.pending_sell_date) := by
  constructor
  · unfold on_chejan
    rw [if_neg (by simp [hg]), if_neg (by simp [hq, hu]),
      if_neg (by simp [hnb]), if_pos hsell]
    unfold finishChejan
    split
    · exact ⟨rfl, rfl, rfl, by simp⟩
    · exact ⟨rfl, rfl, rfl, by simp⟩
  · intro hpd hins hrt hsf hsd hqle
    refine ⟨{ s with
        sell_filled_date := some c.today
        sell_reason := some "no_position"
        sell_order_pending := false }, ?_, rfl, rfl, rfl, rfl⟩
    unfold try_next_open_sell
    rw [if_neg (by simp [hpd]), if_neg (by simp [hins]),
      if_neg (by simp [hrt]), if_neg hsf, if_neg hsd]
    simp [hqle]

/-- Witness for the amended C2, at the recorded sell fill of day 10. -/
theorem sell_termination_keeps_pending_w :
    (on_chejan 10 false "" sellFillEv sellPendingSt).1.pending_sell_date
      = sellPendingSt.pending_sell_date :=
  ((sell_termination_keeps_pending 10 false "" sellFillEv { today := 12 } 0
      sellPendingSt (by decide) (by decide) (by decide) (by decide)
      (by decide)).1).2.2.1

/-- C4 counterexample: reconciliation is not keyed on orderId. A full
buy fill whose order number 9999 matches neither recorded id (0001 buy,
0002 sell) is not a no-op: it marks the buy leg filled and overwrites
buy_order_no with 9999; and the duplicate delivery attempts a second
e-mail notification. -/
theorem fill_orderid_cex :
    ((on_chejan 10 false "" strayBuyFillEv recordedIdsSt).1
      ≠ recordedIdsSt) ∧
    ((on_chejan 10 false "" strayBuyFillEv recordedIdsSt).1.buy_order_no
      = some "9999") ∧
    ((on_chejan 10 false "" strayBuyFillEv
        ((on_chejan 10 false "" strayBuyFillEv recordedIdsSt).1)).2.emails
      = 1) := by decide

/-- C4 amended: fill reconciliation is keyed on the direction string of
the event, not on orderId. Delivering the same full-fill event twice
yields a persisted state identical to delivering it once, but the
notification is re-attempted on every delivery (the e-mail count of the
duplicate delivery equals that of the first, not zero); an event whose
direction string contains neither the buy nor the sell marker is a
no-op. -/
theorem fill_reconciliation_spec (today : Nat) (eok : Bool) (er : String)
    (ev : ChejanEvent) (s : St) :
    ((on_chejan today eok er ev ((on_chejan today eok er ev s).1)).1
      = (on_chejan today eok er ev s).1) ∧
    ((on_chejan today eok er ev ((on_chejan today eok er ev s).1)).2.emails
      = (on_chejan today eok er ev s).2.emails) ∧
    (strHasSub ev.order_gubun "매수" = false →
     strHasSub ev.order_gubun "매도" = false →
     on_chejan today eok er ev s = (s, noEff)) := by
  by_cases hg : ev.gubun ≠ "0"
  · simp [on_chejan, hg]
  · by_cases hf : 0 < ev.order_qty ∧ ev.unfilled_qty = 0
    · by_cases hb : strHasSub ev.order_gubun "매수" = true
      · cases eok <;>
          simp [on_chejan, finishChejan, hg, hf, hb]
      · by_cases hd : strHasSub ev.order_gubun "매도" = true
        · cases eok <;>
            simp [on_chejan, finishChejan, hg, hf, hb, hd]
        · simp [on_chejan, hg, hf, hb, hd]
    · simp [on_chejan, hg, hf]

/-- Witness for the amended C4: an amend-direction full fill leaves the
state with recorded ids 0001 and 0002 untouched. -/
theorem fill_reconciliation_spec_w :
    on_chejan 10 true "err" otherDirEv recordedIdsSt
      = (recordedIdsSt, noEff) :=
  (fill_reconciliation_spec 10 true "err" otherDirEv recordedIdsSt).2.2
    (by decide) (by decide)

/-- Helper: whenever the pending sell is not due today, or today is a
non-trading day, the state left by the holiday roll has no pending sell
due today. -/
theorem roll_pending_ne (today : Nat) (trading : Bool) (s : St)
    (h : s.pending_sell_date ≠ some today ∨ trading = false) :
    (roll_pending_sell_if_holiday today trading s).1.pending_sell_date
      ≠ some today := by
  unfold roll_pending_sell_if_holiday
  cases hps : s.pending_sell_date with
  | none => simp [hps]
  | some p =>
    by_cases hp : p = today
    · rcases h with h | h
      · exact absurd (by rw [hps, hp]) h
      · subst hp h
        simp [hps]
    · simp [hps, hp]

/-- Helper: with no pending sell due today, try_next_open_sell returns
at its first guard, never querying the position. -/
theorem try_next_open_sell_skip (c : Ctx) (pos : Option Int) (s : St)
    (h : s.pending_sell_date ≠ some c.today) :
    try_next_open_sell c pos s = some (s, noEff) := by
  unfold try_next_open_sell
  rw [if_pos h]

/-- C3 counterexample: the buy evaluation never checks the position. On
day 10, with the gateway reporting a held position of 5 shares, price
1000, cached breakout 105 and budget 10500, the tick still sends a real
buy order for 10 shares and records the intent; no skip for an existing
holding is recorded anywhere. -/
theorem buy_skip_already_holding_cex :
    ((on_tick { today := 10, budget := 10500 }
        { refreshOk := true, tradingToday := true,
          priceVol := some (1000, 50), bars := none, posQty := some 5 }
        initSt (some 105) 0).2.2.2.orders
      = [⟨Side.buy, "122630", 10⟩]) ∧
    ((on_tick { today := 10, budget := 10500 }
        { refreshOk := true, tradingToday := true,
          priceVol := some (1000, 50), bars := none, posQty := some 5 }
        initSt (some 105) 0).1.buy_sent_date
      = some 10) := by decide

/-- C3 amended: buy evaluation performs no position check, so no
SKIPPED(already_holding) transition exists. Whenever the sell leg is not
due today (or today is a non-trading day, so the roll defers it), the
entire tick is independent of the reported position quantity; in
particular a positive position does not suppress the breakout buy. -/
theorem buy_ignores_position (c : Ctx) (gw : Gateway) (pos1 pos2 : Option Int)
    (s : St) (bc : Option Int) (fc : Nat)
    (h : s.pending_sell_date ≠ some c.today ∨ gw.tradingToday = false) :
    on_tick c { gw with posQty := pos1 } s bc fc
      = on_tick c { gw with posQty := pos2 } s bc fc := by
  have hpend := roll_pending_ne c.today gw.tradingToday s h
  unfold on_tick
  dsimp only
  rw [try_next_open_sell_skip c pos1 _ hpend,
    try_next_open_sell_skip c pos2 _ hpend]
  rfl

/-- Witness for the amended C3: with no pending sell, reporting a held
position of 5 or of 0 yields the same tick outcome. -/
theorem buy_ignores_position_w :
    on_tick { today := 10, budget := 10500 }
        { refreshOk := true, tradingToday := true,
          priceVol := some (1000, 50), bars := none, posQty := some 5 }
        initSt (some 105) 0
      = on_tick { today := 10, budget := 10500 }
        { refreshOk := true, tradingToday := true,
          priceVol := some (1000, 50), bars := none, posQty := some 0 }
        initSt (some 105) 0 :=
  buy_ignores_position { today := 10, budget := 10500 }
    { refreshOk := true, tradingToday := true,
      priceVol := some (1000, 50), bars := none, posQty := some 0 }
    (some 5) (some 0) initSt (some 105) 0 (Or.inl (by decide))

/-- Helper: the holiday roll is a no-op whenever the pending sell is
absent or not due today. -/
theorem roll_noop (today : Nat) (trading : Bool) (s : St)
    (h : s.pending_sell_date ≠ some today) :
    roll_pending_sell_if_holiday today trading s = (s, noEff) := by
  unfold roll_pending_sell_if_holiday
  cases hps : s.pending_sell_date with
  | none => rfl
  | some p =>
    have hp : p ≠ today := by
      intro e
      exact h (by rw [hps, e])
    simp [hp]

/-- C8 counterexample: a tick whose price fetch raises does not leave
the persisted state identical to its pre-tick value. On day 10 with the
sell pending for day 10 and the calendar closed, the holiday roll runs
and persists pending_sell_date = 11 before the price fetch raises; the
tick is caught at the boundary (failure count 1) but the state changed. -/
theorem tick_gateway_failure_cex :
    ((on_tick { today := 10 }
        { refreshOk := true, tradingToday := false, priceVol := none,
          bars := none, posQty := none }
        noPosSt none 0).2.2.1 = 1) ∧
    ((on_tick { today := 10 }
        { refreshOk := true, tradingToday := false, priceVol := none,
          bars := none, posQty := none }
        noPosSt none 0).1 ≠ noPosSt) ∧
    ((on_tick { today := 10 }
        { refreshOk := true, tradingToday := false, priceVol := none,
          bars := none, posQty := none }
        noPosSt none 0).1.pending_sell_date = some 11) := by decide

/-- Helper: once the price fetch succeeds, run_strategy_step always
completes (every later branch returns a value, never an exception). -/
theorem run_strategy_step_some (c : Ctx) (gw : Gateway) (s : St)
    (bc : Option Int) (pv : Int × Int) (hpv : gw.priceVol = some pv) :
    ∃ r, run_strategy_step c gw s bc = some r := by
  unfold run_strategy_step
  rw [hpv]
  obtain ⟨price, vol⟩ := pv
  dsimp only
  split
  · exact ⟨_, rfl⟩
  · split
    · exact ⟨_, rfl⟩
    · split
      · exact ⟨_, rfl⟩
      · exact ⟨_, rfl⟩

/-- C8 amended: any exception is caught at the tick boundary and only
increments the failure count, and sub-steps persist individually: when
no sub-step before the price fetch has anything to do (no pending sell
due today), a tick whose price fetch raises leaves the state, the cache
and the effect log unchanged, and the next tick against a healthy
gateway completes and resets the failure count to 0. When an earlier
sub-step did complete (see the counterexample) its persisted transition
survives the failed tick. -/
theorem tick_failure_boundary (c c2 : Ctx) (gw gw2 : Gateway) (s : St)
    (bc : Option Int) (fc fc2 : Nat) (pv : Int × Int)
    (hr : gw.refreshOk = true)
    (hp : s.pending_sell_date ≠ some c.today)
    (hfail : gw.priceVol = none)
    (hr2 : gw2.refreshOk = true)
    (hp2 : s.pending_sell_date ≠ some c2.today)
    (hpv2 : gw2.priceVol = some pv) :
    on_tick c gw s bc fc = (s, bc, fc + 1, noEff) ∧
    (on_tick c2 gw2 s bc fc2).2.2.1 = 0 := by
  constructor
  · unfold on_tick
    rw [if_neg (by simp [hr]), roll_noop c.today gw.tradingToday s hp]
    dsimp only
    rw [try_next_open_sell_skip c gw.posQty s hp]
    unfold run_strategy_step
    rw [hfail]
    rfl
  · obtain ⟨r, hrun⟩ := run_strategy_step_some c2 gw2 s bc pv hpv2
    unfold on_tick
    rw [if_neg (by simp [hr2]), roll_noop c2.today gw2.tradingToday s hp2]
    dsimp only
    rw [try_next_open_sell_skip c2 gw2.posQty s hp2]
    dsimp only
    rw [hrun]

/-- Witness for the amended C8: a failing tick on a fresh state counts
the failure and changes nothing; the following healthy tick completes. -/
theorem tick_failure_boundary_w :
    (on_tick { today := 10 }
        { refreshOk := true, tradingToday := true, priceVol := none,
          bars := none, posQty := none }
        initSt none 3
      = (initSt, none, 4, noEff)) ∧
    ((on_tick { today := 10 }
        { refreshOk := true, tradingToday := true,
          priceVol := some (1000, 50), bars := none, posQty := none }
        initSt none 4).2.2.1 = 0) :=
  tick_failure_boundary { today := 10 } { today := 10 }
    { refreshOk := true, tradingToday := true, priceVol := none,
      bars := none, posQty := none }
    { refreshOk := true, tradingToday := true, priceVol := some (1000, 50),
      bars := none, posQty := none }
    initSt none 3 4 (1000, 50) (by decide) (by decide) (by decide)
    (by decide) (by decide) (by decide)

/-- Helper: OptLE is reflexive. -/
theorem OptLE_refl (x : Option Nat) : OptLE x x := by
  cases x with
  | none => trivial
  | some a => exact Nat.le_refl a

/-- Helper: the pending bound weakens as the day advances. -/
theorem pendingLE_mono (s : St) (d0 d : Nat) (h : d0 ≤ d)
    (hs : pendingLE s d0) : pendingLE s d := by
  intro p hp
  exact Nat.le_trans (hs p hp) (by omega)

/-- Helper: every operation of the core either leaves pending_sell_date
unchanged or sets it to tomorrow. -/
theorem applyOp_pending_cases (d : Nat) (o : Op) (s : St) :
    (applyOp d o s).pending_sell_date = s.pending_sell_date ∨
    (applyOp d o s).pending_sell_date = some (d + 1) := by
  cases o with
  | roll trading =>
    unfold applyOp roll_pending_sell_if_holiday
    cases hps : s.pending_sell_date with
    | none =>
      simp only [hps]
      exact Or.inl trivial
    | some p =>
      simp only [hps]
      by_cases hp : p ≠ d
      · rw [if_pos hp]
        exact Or.inl hps
      · rw [if_neg hp]
        by_cases ht : trading = true
        · rw [if_pos ht]
          exact Or.inl hps
        · rw [if_neg ht]
          exact Or.inr rfl
  | buyEval c price qty =>
    unfold applyOp try_breakout_buy
    dsimp only
    split
    · exact Or.inl rfl
    · split
      · exact Or.inl rfl
      · split
        · exact Or.inl rfl
        · split
          · exact Or.inr rfl
          · exact Or.inr rfl
  | sellEval c pos =>
    unfold applyOp try_next_open_sell
    dsimp only
    by_cases h1 : s.pending_sell_date ≠ some d
    · rw [if_pos h1]
      exact Or.inl rfl
    · rw [if_neg h1]
      by_cases h2 : ¬ c.inSession = true
      · rw [if_pos h2]
        exact Or.inl rfl
      · rw [if_neg h2]
        by_cases h3 : ¬ c.reachedSellTime = true
        · rw [if_pos h3]
          exact Or.inl rfl
        · rw [if_neg h3]
          by_cases h4 : s.sell_filled_date = some d
          · rw [if_pos h4]
            exact Or.inl rfl
          · rw [if_neg h4]
            by_cases h5 : s.sell_sent_date = some d ∧ s.sell_order_pending = true
            · rw [if_pos h5]
              exact Or.inl rfl
            · rw [if_neg h5]
              cases pos with
              | none => exact Or.inl rfl
              | some q =>
                dsimp only
                by_cases h6 : q ≤ 0
                · rw [if_pos h6]
                  exact Or.inl rfl
                · rw [if_neg h6]
                  by_cases h7 : ¬ c.realOn = true
                  · rw [if_pos h7]
                    exact Or.inl rfl
                  · rw [if_neg h7]
                    exact Or.inl rfl
  | fill eok er ev =>
    unfold applyOp on_chejan
    dsimp only
    split
    · exact Or.inl rfl
    · split
      · exact Or.inl rfl
      · split
        · rcases finishChejan_fst eok er _ with he | he <;> rw [he] <;>
            exact Or.inl rfl
        · split
          · rcases finishChejan_fst eok er _ with he | he <;> rw [he] <;>
              exact Or.inl rfl
          · exact Or.inl rfl

/-- Helper: every operation preserves the pending bound on its day. -/
theorem pendingLE_step (d : Nat) (o : Op) (s : St) (hs : pendingLE s d) :
    pendingLE (applyOp d o s) d := by
  intro p hp
  rcases applyOp_pending_cases d o s with h | h
  · exact hs p (h ▸ hp)
  · rw [h] at hp
    have hpe : p = d + 1 := (Option.some.inj hp).symm
    omega

/-- C9: pending_sell_date is monotone. Along any execution trace of the
four state-mutating operations, run on nondecreasing calendar days from
a state satisfying the reachability bound pendingLE (as the empty
initial state does), no step ever replaces pending_sell_date by an
earlier date: consecutive states are related by OptLE on that field. -/
theorem pending_sell_date_monotone (tr : List (Nat × Op)) (s : St)
    (d0 : Nat) (hs : pendingLE s d0) (hm : DaysMono d0 tr) (i : Nat) :
    OptLE (runTrace s (tr.take i)).pending_sell_date
      (runTrace s (tr.take (i + 1))).pending_sell_date := by
  induction tr generalizing s d0 i with
  | nil =>
    simp only [List.take_nil, runTrace]
    exact OptLE_refl _
  | cons hd tl ih =>
    obtain ⟨d, o⟩ := hd
    obtain ⟨hle, hm2⟩ := hm
    have hsd : pendingLE s d := pendingLE_mono s d0 d hle hs
    cases i with
    | zero =>
      simp only [List.take_zero, List.take_succ_cons, runTrace]
      rcases applyOp_pending_cases d o s with h | h
      · rw [h]
        exact OptLE_refl _
      · rw [h]
        cases hps : s.pending_sell_date with
        | none => trivial
        | some a => exact hsd a hps
    | succ j =>
      simp only [List.take_succ_cons, runTrace]
      exact ih (applyOp d o s) d (pendingLE_step d o s hsd) hm2 j

/-- Witness for C9: a real buy on day 10 schedules the sell for day 11;
rolling on closed day 11 moves it to day 12; between those consecutive
states the pending date advances (11 to 12). -/
theorem pending_sell_date_monotone_w :
    OptLE
      (runTrace initSt ([(10, Op.buyEval { today := 0 } 1000 10),
        (11, Op.roll false)].take 1)).pending_sell_date
      (runTrace initSt ([(10, Op.buyEval { today := 0 } 1000 10),
        (11, Op.roll false)].take 2)).pending_sell_date :=
  pending_sell_date_monotone
    [(10, Op.buyEval { today := 0 } 1000 10), (11, Op.roll false)]
    initSt 0 (fun p hp => Option.noConfusion hp)
    ⟨by decide, by decide, trivial⟩ 1
